import Mathlib

/-!
# Verification of the `FritterStaticMiddleware` static-file middleware

Shallow embedding of the single middleware class of this repository
(`FritterStaticMiddleware`): the `execute` middleware function and the
`getCacheBustedPath` helper, together with the POSIX path primitives
(`path.posix.normalize`, `path.join`, `path.basename`) the code relies on.

Modelling conventions:
* The filesystem (`fs.promises.stat` / `fs.statSync`), the MIME lookup
  (`mimeTypes.lookup`) and the compressibility classifier (`isCompressible`)
  are external collaborators; they are modelled as pure functions packaged in
  an `Env` structure.  An `Env.stat` result of `none` models the thrown
  exception of a failed stat.
* The request/response accessor contract of `@fritter/core` is modelled as a
  `FritterRequest` record of the values the middleware reads and a `Response`
  record of the mutations it performs.  The request path field holds the value
  of `decodeURIComponent(context.fritterRequest.getPath())`; percent-decoding
  is the identity on percent-free strings and surjective onto strings, so
  quantifying over decoded strings loses nothing.
* The host platform is taken to be POSIX, so `path.join` is POSIX join
  (the source forces `path.posix.normalize` for the request path itself).
* JS numbers (`stats.mtimeMs`, `stats.size`, `mtime.getTime()`) are modelled
  as naturals; `Date` values (`stats.mtime`, `modifiedDate`) are identified
  with their epoch-millisecond value, so `mtime.getTime() = mtimeMs` and
  `modifiedDate` stores the millisecond value of `stats.mtime`.
* JS string operations (`startsWith`, `slice`, `split`, `.length`, `+`) are
  re-implemented on the character list of a `String` so that every definition
  evaluates by kernel reduction alone.
-/

namespace FritterStatic

/-! ## JS string operations -/

/-- `listStarts s p` : does the character list `s` start with `p`? -/
def listStarts : List Char → List Char → Bool
  | _, [] => true
  | [], _ :: _ => false
  | c :: cs, p :: ps => c = p && listStarts cs ps

/-- `s.startsWith(p)` of JS strings. -/
def jsStartsWith (s p : String) : Bool :=
  listStarts s.data p.data

/-- `s.endsWith(p)` of JS strings. -/
def jsEndsWith (s p : String) : Bool :=
  listStarts s.data.reverse p.data.reverse

/-- `s.slice(n)` of JS strings: drop the first `n` characters. -/
def jsSlice (s : String) (n : Nat) : String :=
  ⟨s.data.drop n⟩

/-- `s.length` of JS strings. -/
def jsLength (s : String) : Nat :=
  s.data.length

/-! ## POSIX path primitives (`node:path`, posix flavour) -/

/-- Split a character list at every `'/'` (like `"…".split("/")`,
which is what `path.posix.normalize` does internally). -/
def splitSlashChars : List Char → List (List Char)
  | [] => [[]]
  | c :: cs =>
    match splitSlashChars cs with
    | h :: t => if c = '/' then [] :: h :: t else (c :: h) :: t
    | [] => [[]]

/-- Split a string into its `/`-separated segments. -/
def splitSlash (s : String) : List String :=
  (splitSlashChars s.data).map (fun l => ⟨l⟩)

/-- Join segments with `/` (Node's `path.posix.sep`). -/
def joinSlash : List String → String
  | [] => ""
  | [s] => s
  | s :: rest => s ++ "/" ++ joinSlash rest

/-- Last element of a list of segments, with default. -/
def lastD : List String → String → String
  | [], d => d
  | [s], _ => s
  | _ :: s :: rest, d => lastD (s :: rest) d

/-- Segment processing of Node's `normalizeString`: drop empty and `.`
segments; `..` pops a previous real segment, is dropped at the root of an
absolute path, and is kept (stacked) in a relative path.  The accumulator
holds the processed segments in reverse order. -/
def normSegs (isAbs : Bool) : List String → List String → List String
  | acc, [] => acc.reverse
  | acc, seg :: rest =>
    if seg = "" ∨ seg = "." then
      normSegs isAbs acc rest
    else if seg = ".." then
      match acc with
      | top :: tail =>
        if top = ".." then normSegs isAbs (".." :: top :: tail) rest
        else normSegs isAbs tail rest
      | [] =>
        if isAbs then normSegs isAbs [] rest
        else normSegs isAbs [".."] rest
    else
      normSegs isAbs (seg :: acc) rest

/-- `path.posix.normalize`. -/
def posixNormalize (p : String) : String :=
  if p = "" then "."
  else
    let isAbs := jsStartsWith p "/"
    let trailing := jsEndsWith p "/"
    let core := joinSlash (normSegs isAbs [] (splitSlash p))
    if core = "" then
      if isAbs then "/" else if trailing then "./" else "."
    else
      let core := if trailing then core ++ "/" else core
      if isAbs then "/" ++ core else core

/-- `path.posix.join a b`: join the non-empty arguments with `/` and
normalize; the empty join is `"."`. -/
def posixJoin (a b : String) : String :=
  match [a, b].filter (fun s => s ≠ "") with
  | [] => "."
  | parts => posixNormalize (joinSlash parts)

/-- `path.posix.basename p` (no extension argument): the last path segment,
ignoring trailing separators; `""` when the path is empty or all
separators. -/
def posixBasename (p : String) : String :=
  let stripped : String := ⟨(p.data.reverse.dropWhile (fun c => c = '/')).reverse⟩
  if stripped = "" then ""
  else lastD (splitSlash stripped) ""

/-! ## Data model -/

/-- `FritterStaticMiddlewareDirectory`: a directory mount.  A missing
`mountPath` (JS `undefined`/`null`) is `none`. -/
structure FritterStaticMiddlewareDirectory where
  mountPath : Option String
  path : String
deriving DecidableEq

/-- The fields of an `fs.Stats` object that the middleware reads:
`isFile()`, `mtimeMs` (= `mtime.getTime()`), `size`. -/
structure Stats where
  isFile : Bool
  mtimeMs : Nat
  size : Nat
deriving DecidableEq

/-- `FritterStaticMiddlewareFile`: one cached file entry.  `modifiedDate`
holds the epoch-millisecond value of the JS `Date` stored in the source's
`modifiedDate` field (`stats.mtime`). -/
structure FritterStaticMiddlewareFile where
  onDiskFilePath : String
  modifiedDate : Nat
  size : Nat
  stats : Stats
  type : String
deriving DecidableEq

/-- External collaborators: the filesystem, `mimeTypes.lookup`
(`none` models its `false` result) and `isCompressible`.  `stat p = none`
models a stat call on `p` throwing. -/
structure Env where
  stat : String → Option Stats
  mimeLookup : String → Option String
  compressible : String → Bool

/-- `mimeTypes.lookup(p) || "application/octet-stream"`. -/
def mimeTypeFor (env : Env) (p : String) : String :=
  (env.mimeLookup p).getD "application/octet-stream"

/-- `FritterStaticMiddlewareOptions`: constructor options; optional fields
are `Option`-valued (`none` = absent). -/
structure FritterStaticMiddlewareOptions where
  cacheControlHeader : Option String
  dirs : List FritterStaticMiddlewareDirectory
  enableGzip : Option Bool
  maxAge : Option Nat

/-- The immutable configuration part of a `FritterStaticMiddleware`
instance (the mutable `fileDataCache` is threaded separately). -/
structure FritterStaticMiddleware where
  cacheControlHeader : String
  dirs : List FritterStaticMiddlewareDirectory
  enableGzip : Bool
  maxAge : Nat
deriving DecidableEq

/-- The constructor's default-option logic (`??` chains). -/
def FritterStaticMiddleware.ofOptions (o : FritterStaticMiddlewareOptions) :
    FritterStaticMiddleware :=
  { dirs := o.dirs
    enableGzip := o.enableGzip.getD true
    maxAge := o.maxAge.getD 0
    cacheControlHeader :=
      o.cacheControlHeader.getD ("public, max-age=" ++ toString (o.maxAge.getD 0)) }

/-- The `fileDataCache` JS object: an insert-shadowing association list. -/
abbrev FileDataCache := List (String × FritterStaticMiddlewareFile)

/-- `this.fileDataCache[k]` (JS property read; `none` = `undefined`). -/
def cacheLookup : FileDataCache → String → Option FritterStaticMiddlewareFile
  | [], _ => none
  | (k, f) :: rest, key => if k = key then some f else cacheLookup rest key

/-- `this.fileDataCache[k] = f` (JS property write). -/
def cacheInsert (c : FileDataCache) (k : String) (f : FritterStaticMiddlewareFile) :
    FileDataCache :=
  (k, f) :: c

/-! ## Request and response abstraction (`@fritter/core` boundary) -/

/-- The values the middleware reads from `context.fritterRequest`:
`getHttpMethod()`, `decodeURIComponent(getPath())`, `isFresh()`, and
whether `getAccepts().encoding("gzip") != null`. -/
structure FritterRequest where
  httpMethod : String
  path : String
  isFresh : Bool
  acceptsGzip : Bool
deriving DecidableEq

/-- A response body: the file read stream, or that stream piped through
`zlib.createGzip()`. -/
inductive ResponseBody where
  | fileStream (onDiskFilePath : String)
  | gzipStream (onDiskFilePath : String)
deriving DecidableEq

/-- The state accumulated through `context.fritterResponse` mutators
(§6 accessor contract: status, Last-Modified, Vary names, content type,
content length with the ability to remove it, named headers, body). -/
structure Response where
  statusCode : Option Nat
  lastModified : Option Nat
  varyHeaderNames : List String
  contentType : Option String
  contentLength : Option Nat
  headerValues : List (String × String)
  body : Option ResponseBody
deriving DecidableEq

/-- The response before any mutator ran. -/
def Response.initial : Response :=
  { statusCode := none
    lastModified := none
    varyHeaderNames := []
    contentType := none
    contentLength := none
    headerValues := []
    body := none }

/-- `setHeaderValue(name, value)`: set a named header (overwriting). -/
def setHeaderValue (r : Response) (name value : String) : Response :=
  { r with headerValues := (name, value) :: r.headerValues.filter (fun p => p.1 ≠ name) }

/-- `removeHeaderValue(name)`: remove a named header; removing
`"Content-Length"` clears the content length set by `setContentLength`. -/
def removeHeaderValue (r : Response) (name : String) : Response :=
  let r := { r with headerValues := r.headerValues.filter (fun p => p.1 ≠ name) }
  if name = "Content-Length" then { r with contentLength := none } else r

/-- Read back a named header (for stating properties). -/
def Response.headerValue (r : Response) (name : String) : Option String :=
  (r.headerValues.find? (fun p => p.1 = name)).map Prod.snd

/-! ## The `execute` middleware function -/

/-- How one run of `execute` returned: by `return await next()` (`next`),
by running the response path to completion (`served`), or by an `await`
throwing an unhandled error (`statError`, the rejection of the bare
`fs.promises.stat` on a cached entry's path). -/
inductive ExecResult where
  | next
  | served
  | statError (onDiskFilePath : String)
deriving DecidableEq

/-- The observable outcome of one `execute` call: how it returned, the
cache afterwards, and the response mutations performed. -/
structure ExecOutput where
  result : ExecResult
  fileDataCache : FileDataCache
  response : Response
deriving DecidableEq

/-- Outcome of the `for (const dir of this.dirs)` loop (source lines
134-205): the traversal guard fired (`return await next()`), a regular
file was found and stored under `key` (the current, possibly
mount-stripped, `requestedFilePath`), or the loop ran out of directories
with `file` still null.  `guardReject` and `exhausted` record the loop
variable's state for the theorems. -/
inductive DirLoopResult where
  | guardReject (requestedFilePath onDiskFilePath : String)
  | found (key : String) (file : FritterStaticMiddlewareFile)
  | exhausted (requestedFilePath : String)
deriving DecidableEq

/-- The mount-point stripping of lines 140-148 once the mount is known to
apply: `requestedFilePath = requestedFilePath.slice(dir.mountPath.length)`
when a `mountPath` is declared, identity otherwise. -/
def stripMount (dir : FritterStaticMiddlewareDirectory) (p : String) : String :=
  match dir.mountPath with
  | some mountPath => jsSlice p (jsLength mountPath)
  | none => p

/-- Whether the loop body of lines 140-148 proceeds past the mount-point
check for `dir` on the current path `p` (rather than `continue`-ing):
either no `mountPath` is declared, or `p` starts with it. -/
def mountApplies (dir : FritterStaticMiddlewareDirectory) (p : String) : Bool :=
  match dir.mountPath with
  | some mountPath => jsStartsWith p mountPath
  | none => true

/-- The directory loop of `execute`.  The `requestedFilePath` argument is
the loop variable the source mutates in place (mount-prefix stripping at
line 147 persists into later iterations). -/
def iterateDirs (env : Env) :
    List FritterStaticMiddlewareDirectory → String → DirLoopResult
  | [], requestedFilePath => .exhausted requestedFilePath
  | dir :: rest, requestedFilePath =>
    -- Handle Mount Point (lines 140-148)
    if dir.mountPath.isSome ∧ ¬ jsStartsWith requestedFilePath (dir.mountPath.getD "") then
      iterateDirs env rest requestedFilePath
    else
      let requestedFilePath := stripMount dir requestedFilePath
      -- Build File Path (line 154)
      let onDiskFilePath := posixJoin dir.path requestedFilePath
      -- Prevent Directory Traversal (lines 160-163)
      if ¬ jsStartsWith onDiskFilePath dir.path then
        .guardReject requestedFilePath onDiskFilePath
      else
        -- Get File Stats (lines 169-183)
        match env.stat onDiskFilePath with
        | none => iterateDirs env rest requestedFilePath
        | some stats =>
          if ¬ stats.isFile then
            iterateDirs env rest requestedFilePath
          else
            -- Create File Data (lines 189-204)
            .found requestedFilePath
              { onDiskFilePath := onDiskFilePath
                modifiedDate := stats.mtimeMs
                size := stats.size
                stats := stats
                type := mimeTypeFor env onDiskFilePath }

/-- The `shouldGzip` expression of line 267:
`this.enableGzip && file.size > 1024 && isCompressible(file.type)`. -/
def shouldGzipFor (m : FritterStaticMiddleware) (env : Env)
    (file : FritterStaticMiddlewareFile) : Bool :=
  m.enableGzip && decide (file.size > 1024) && env.compressible file.type

/-- The response-building tail of `execute` (source lines 234-280), run
once a (fresh or cached) `file` is in hand and its re-stat succeeded. -/
def buildResponse (m : FritterStaticMiddleware) (env : Env) (cache : FileDataCache)
    (file : FritterStaticMiddlewareFile) (req : FritterRequest) : ExecOutput :=
  let r := { Response.initial with statusCode := some 200 }
  let r := { r with lastModified := some file.modifiedDate }
  let r :=
    if m.enableGzip then
      { r with varyHeaderNames := r.varyHeaderNames ++ ["Accept-Encoding"] }
    else r
  if req.isFresh then
    { result := .served, fileDataCache := cache
      response := { r with statusCode := some 304 } }
  else
    let r := { r with contentType := some file.type }
    let r := { r with contentLength := some file.size }
    let r := setHeaderValue r "Cache-Control" m.cacheControlHeader
    if req.httpMethod = "HEAD" then
      { result := .served, fileDataCache := cache, response := r }
    else
      let r := { r with body := some (.fileStream file.onDiskFilePath) }
      let acceptsGzip := req.acceptsGzip
      let shouldGzip := shouldGzipFor m env file
      if acceptsGzip && shouldGzip then
        let r := removeHeaderValue r "Content-Length"
        let r := setHeaderValue r "Content-Encoding" "gzip"
        let r := { r with body := some (.gzipStream file.onDiskFilePath) }
        { result := .served, fileDataCache := cache, response := r }
      else
        let r := { r with body := some (.fileStream file.onDiskFilePath) }
        { result := .served, fileDataCache := cache, response := r }

/-- The re-stat/refresh step of `execute` (source lines 217-228) followed
by the response build.  `cacheKey` is the key the in-hand `file` object is
stored under; the in-place field mutation of the shared JS object is
modelled by re-inserting the refreshed entry under that key. -/
def executeServe (m : FritterStaticMiddleware) (env : Env) (cache : FileDataCache)
    (cacheKey : String) (file : FritterStaticMiddlewareFile) (req : FritterRequest) :
    ExecOutput :=
  match env.stat file.onDiskFilePath with
  | none =>
    { result := .statError file.onDiskFilePath, fileDataCache := cache
      response := Response.initial }
  | some stats =>
    if stats.mtimeMs ≠ file.stats.mtimeMs then
      let file :=
        { file with
            modifiedDate := stats.mtimeMs
            size := stats.size
            stats := stats
            type := mimeTypeFor env file.onDiskFilePath }
      buildResponse m env (cacheInsert cache cacheKey file) file req
    else
      buildResponse m env cache file req

/-- One call of the `execute` middleware function, over an explicit cache
state.  Returns how it ended, the cache afterwards, and the response. -/
def execute (m : FritterStaticMiddleware) (env : Env) (cache : FileDataCache)
    (req : FritterRequest) : ExecOutput :=
  -- Check Method (lines 101-104)
  if req.httpMethod ≠ "GET" ∧ req.httpMethod ≠ "HEAD" then
    { result := .next, fileDataCache := cache, response := Response.initial }
  else
    -- Get Path (line 111)
    let requestedFilePath := posixNormalize req.path
    if posixBasename requestedFilePath = "." then
      { result := .next, fileDataCache := cache, response := Response.initial }
    else
      -- Get File Data from Cache (line 122)
      match cacheLookup cache requestedFilePath with
      | some file => executeServe m env cache requestedFilePath file req
      | none =>
        -- Load File Data (lines 128-210)
        match iterateDirs env m.dirs requestedFilePath with
        | .guardReject _ _ =>
          { result := .next, fileDataCache := cache, response := Response.initial }
        | .exhausted _ =>
          { result := .next, fileDataCache := cache, response := Response.initial }
        | .found key file =>
          executeServe m env (cacheInsert cache key file) key file req

/-! ## `getCacheBustedPath` -/

/-- The directory loop of `getCacheBustedPath` (source lines 294-323);
`filePath` is again a loop variable mutated in place by mount-prefix
stripping.  Note there is no traversal guard and no `isFile` check here. -/
def getCacheBustedPathLoop (env : Env) :
    List FritterStaticMiddlewareDirectory → String → String
  | [], filePath => filePath
  | dir :: rest, filePath =>
    if dir.mountPath.isSome ∧ ¬ jsStartsWith filePath (dir.mountPath.getD "") then
      getCacheBustedPathLoop env rest filePath
    else
      let filePath := stripMount dir filePath
      let onDiskPath := posixJoin dir.path filePath
      match env.stat onDiskPath with
      | some stats => filePath ++ "?mtime=" ++ toString stats.mtimeMs
      | none => getCacheBustedPathLoop env rest filePath

/-- `getCacheBustedPath(filePath)` over an explicit cache state.
`stats.mtime.getTime()` equals `stats.mtimeMs` under the Date model. -/
def getCacheBustedPath (m : FritterStaticMiddleware) (env : Env)
    (cache : FileDataCache) (filePath : String) : String :=
  match cacheLookup cache filePath with
  | some file => filePath ++ "?mtime=" ++ toString file.stats.mtimeMs
  | none => getCacheBustedPathLoop env m.dirs filePath

/-! ## Concrete scenarios

Small closed configurations, filesystems and requests used to evaluate the
definitions at concrete inputs. -/

/-- A filesystem with the single regular file `root/x` (2000 bytes,
mtime 5 ms), a CSS MIME table and an all-compressible classifier. -/
def envA : Env :=
  { stat := fun p =>
      if p = "root/x" then some { isFile := true, mtimeMs := 5, size := 2000 } else none
    mimeLookup := fun _ => some "text/css"
    compressible := fun _ => true }

/-- Like `envA` but `root/x` was modified on disk: mtime 9 ms, 3000 bytes. -/
def envB : Env :=
  { envA with
      stat := fun p =>
        if p = "root/x" then some { isFile := true, mtimeMs := 9, size := 3000 } else none }

/-- Like `envA` but `root/x` is small (500 bytes). -/
def envSmall : Env :=
  { envA with
      stat := fun p =>
        if p = "root/x" then some { isFile := true, mtimeMs := 5, size := 500 } else none }

/-- A filesystem on which every stat fails. -/
def envGone : Env :=
  { stat := fun _ => none
    mimeLookup := fun _ => some "text/css"
    compressible := fun _ => true }

/-- Two roots: `r1/f` does not exist, `r2/f` and `r1/g` are regular files,
and `r1/d` is a directory. -/
def envTwo : Env :=
  { stat := fun p =>
      if p = "r2/f" then some { isFile := true, mtimeMs := 7, size := 10 }
      else if p = "r1/g" then some { isFile := true, mtimeMs := 3, size := 20 }
      else if p = "r1/d" then some { isFile := false, mtimeMs := 1, size := 0 }
      else none
    mimeLookup := fun _ => none
    compressible := fun _ => false }

/-- One mount of `root` under the mount path `/a`, gzip enabled. -/
def mA : FritterStaticMiddleware :=
  { cacheControlHeader := "public, max-age=0"
    dirs := [{ mountPath := some "/a", path := "root" }]
    enableGzip := true
    maxAge := 0 }

/-- One unmounted directory `root`, gzip enabled. -/
def mB : FritterStaticMiddleware :=
  { mA with dirs := [{ mountPath := none, path := "root" }] }

/-- Two unmounted directories `r1`, `r2` in that order. -/
def mTwo : FritterStaticMiddleware :=
  { mA with
      dirs := [{ mountPath := none, path := "r1" }, { mountPath := none, path := "r2" }] }

/-- Two mounted directories: `r1` under `/a`, then `r2` under `/b`. -/
def mNested : FritterStaticMiddleware :=
  { mA with
      dirs :=
        [{ mountPath := some "/a", path := "r1" }, { mountPath := some "/b", path := "r2" }] }

/-- The cache entry `execute` builds for `root/x` under `envA`. -/
def fileX : FritterStaticMiddlewareFile :=
  { onDiskFilePath := "root/x"
    modifiedDate := 5
    size := 2000
    stats := { isFile := true, mtimeMs := 5, size := 2000 }
    type := "text/css" }

/-- A cache holding `fileX` under the request path `/p`. -/
def cacheX : FileDataCache := [("/p", fileX)]

/-- GET `/a/x`, not fresh, accepts gzip. -/
def reqGA : FritterRequest :=
  { httpMethod := "GET", path := "/a/x", isFresh := false, acceptsGzip := true }

/-- HEAD `/a/x`, not fresh, accepts gzip. -/
def reqHA : FritterRequest := { reqGA with httpMethod := "HEAD" }

/-- GET `/p`, not fresh, accepts gzip. -/
def reqGP : FritterRequest := { reqGA with path := "/p" }

/-- GET `/p`, fresh. -/
def reqFresh : FritterRequest := { reqGP with isFresh := true }

/-- HEAD `/p`, not fresh, accepts gzip. -/
def reqHP : FritterRequest := { reqGP with httpMethod := "HEAD" }

/-- GET `../secret` (a relative path whose `..` survives normalization). -/
def reqEsc : FritterRequest := { reqGA with path := "../secret" }

/-- Filesystem for the nested-mount scenario: `r2/c` is a regular file,
`r1/dd` is a directory, nothing else exists, no MIME table hits. -/
def envNested : Env :=
  { stat := fun p =>
      if p = "r2/c" then some { isFile := true, mtimeMs := 11, size := 50 }
      else if p = "r1/dd" then some { isFile := false, mtimeMs := 0, size := 0 }
      else none
    mimeLookup := fun _ => none
    compressible := fun _ => false }

/-- The entry built for `r2/c` under `envNested`. -/
def fileC : FritterStaticMiddlewareFile :=
  { onDiskFilePath := "r2/c"
    modifiedDate := 11
    size := 50
    stats := { isFile := true, mtimeMs := 11, size := 50 }
    type := "application/octet-stream" }

/-- GET `/a/b/c`, not fresh, accepts gzip. -/
def reqNested : FritterRequest := { reqGA with path := "/a/b/c" }

/-- The entry built by the loop for `r2/f` under `envTwo`
(no MIME hit, so the generic binary type). -/
def fileF : FritterStaticMiddlewareFile :=
  { onDiskFilePath := "r2/f"
    modifiedDate := 7
    size := 10
    stats := { isFile := true, mtimeMs := 7, size := 10 }
    type := "application/octet-stream" }

/-- The cache entry for `root/x` under `envSmall` (500 bytes). -/
def fileXSmall : FritterStaticMiddlewareFile :=
  { onDiskFilePath := "root/x"
    modifiedDate := 5
    size := 500
    stats := { isFile := true, mtimeMs := 5, size := 500 }
    type := "text/css" }

/-- A cache holding `fileXSmall` under the request path `/p`. -/
def cacheSmall : FileDataCache := [("/p", fileXSmall)]

/-- `fileX` after the in-place refresh triggered by `envB`'s changed
mtime. -/
def fileXRefreshed : FritterStaticMiddlewareFile :=
  { onDiskFilePath := "root/x"
    modifiedDate := 9
    size := 3000
    stats := { isFile := true, mtimeMs := 9, size := 3000 }
    type := "text/css" }

/-! ## Theorems -/

/-- `buildResponse` never changes the cache it is given. -/
theorem buildResponse_fileDataCache (m : FritterStaticMiddleware) (env : Env)
    (cache : FileDataCache) (file : FritterStaticMiddlewareFile) (req : FritterRequest) :
    (buildResponse m env cache file req).fileDataCache = cache := by
  unfold buildResponse
  cases h1 : req.isFresh
  · by_cases h2 : req.httpMethod = "HEAD"
    · simp [h1, h2]
    · cases h3 : req.acceptsGzip && shouldGzipFor m env file <;> simp [h1, h2, h3]
  · simp [h1]

/-- `buildResponse` always reports `.served`. -/
theorem buildResponse_result (m : FritterStaticMiddleware) (env : Env)
    (cache : FileDataCache) (file : FritterStaticMiddlewareFile) (req : FritterRequest) :
    (buildResponse m env cache file req).result = .served := by
  unfold buildResponse
  cases h1 : req.isFresh
  · by_cases h2 : req.httpMethod = "HEAD"
    · simp [h1, h2]
    · cases h3 : req.acceptsGzip && shouldGzipFor m env file <;> simp [h1, h2, h3]
  · simp [h1]

/-- The Last-Modified header is always set from the entry's modified
date (line 236), before the freshness check, and never cleared. -/
theorem buildResponse_lastModified (m : FritterStaticMiddleware) (env : Env)
    (cache : FileDataCache) (file : FritterStaticMiddlewareFile) (req : FritterRequest) :
    (buildResponse m env cache file req).response.lastModified =
      some file.modifiedDate := by
  unfold buildResponse
  cases h1 : req.isFresh
  · by_cases h2 : req.httpMethod = "HEAD"
    · simp [h1, h2, setHeaderValue, apply_ite]
    · cases h3 : req.acceptsGzip && shouldGzipFor m env file <;>
        simp [h1, h2, h3, setHeaderValue, removeHeaderValue, apply_ite]
  · simp [h1, apply_ite]

/-- On a non-fresh request the content type is set to the entry's type
(line 250) and never cleared afterwards. -/
theorem buildResponse_contentType (m : FritterStaticMiddleware) (env : Env)
    (cache : FileDataCache) (file : FritterStaticMiddlewareFile) (req : FritterRequest)
    (h1 : req.isFresh = false) :
    (buildResponse m env cache file req).response.contentType = some file.type := by
  unfold buildResponse
  by_cases h2 : req.httpMethod = "HEAD"
  · simp [h1, h2, setHeaderValue, apply_ite]
  · cases h3 : req.acceptsGzip && shouldGzipFor m env file <;>
      simp [h1, h2, h3, setHeaderValue, removeHeaderValue, apply_ite]

/-- C1: Traversal safety.  (1) Whenever the directory loop ends in a
traversal-guard rejection, `execute` delegates to the next handler with the
cache untouched and no response mutation — in particular no file is served.
(2) The guard rejection is exactly the situation in which the joined
candidate path does not begin with the mount's root as a string prefix, and
it ends the iteration at that mount (the result does not depend on the
remaining mounts).  (3) Any file the loop does produce has an on-disk path
that begins with its winning mount's root as a string prefix. -/
theorem C1_traversal_guard :
    (∀ (m : FritterStaticMiddleware) (env : Env) (cache : FileDataCache)
       (req : FritterRequest) (p odp : String),
       cacheLookup cache (posixNormalize req.path) = none →
       iterateDirs env m.dirs (posixNormalize req.path) = .guardReject p odp →
       execute m env cache req =
         { result := .next, fileDataCache := cache, response := Response.initial })
    ∧
    (∀ (env : Env) (dir : FritterStaticMiddlewareDirectory)
       (rest : List FritterStaticMiddlewareDirectory) (rfp : String),
       mountApplies dir rfp = true →
       jsStartsWith (posixJoin dir.path (stripMount dir rfp)) dir.path = false →
       iterateDirs env (dir :: rest) rfp =
         .guardReject (stripMount dir rfp) (posixJoin dir.path (stripMount dir rfp)))
    ∧
    (∀ (env : Env) (dirs : List FritterStaticMiddlewareDirectory) (rfp key : String)
       (file : FritterStaticMiddlewareFile),
       iterateDirs env dirs rfp = .found key file →
       ∃ dir ∈ dirs, jsStartsWith file.onDiskFilePath dir.path = true) := by
  refine ⟨?_, ?_, ?_⟩
  · intro m env cache req p odp hc hl
    by_cases hm : req.httpMethod ≠ "GET" ∧ req.httpMethod ≠ "HEAD"
    · simp [execute, hm]
    · by_cases hb : posixBasename (posixNormalize req.path) = "."
      · simp [execute, hm, hb]
      · simp [execute, hm, hb, hc, hl]
  · intro env dir rest rfp hm hg
    cases hd : dir.mountPath with
    | none =>
      simp only [stripMount, hd] at hg
      simp [iterateDirs, stripMount, hd, hg]
    | some mp =>
      have hsw : jsStartsWith rfp mp = true := by simpa [mountApplies, hd] using hm
      simp [iterateDirs, stripMount, hd, hsw]
      simp [stripMount, hd] at hg
      simp [hg]
  · intro env dirs rfp key file h
    induction dirs generalizing rfp with
    | nil => simp [iterateDirs] at h
    | cons dir rest ih =>
      simp only [iterateDirs] at h
      split at h
      · obtain ⟨d, hd, hp⟩ := ih _ h
        exact ⟨d, List.mem_cons_of_mem _ hd, hp⟩
      · split at h
        · simp at h
        next hguard =>
          split at h
          · obtain ⟨d, hd, hp⟩ := ih _ h
            exact ⟨d, List.mem_cons_of_mem _ hd, hp⟩
          next stats hstat =>
            split at h
            · obtain ⟨d, hd, hp⟩ := ih _ h
              exact ⟨d, List.mem_cons_of_mem _ hd, hp⟩
            · cases h
              refine ⟨dir, List.mem_cons_self _ _, ?_⟩
              simpa using hguard

/-- Witness for C1 at concrete inputs: a relative request `../secret`
escaping the root `root` is guard-rejected and delegated, and the concrete
resolution of `/a/x` stays inside its root. -/
theorem C1_traversal_guard_witness :
    (execute mB envA [] reqEsc =
      { result := .next, fileDataCache := [], response := Response.initial })
    ∧ (iterateDirs envA [{ mountPath := none, path := "root" }] "../secret" =
        .guardReject "../secret" "secret")
    ∧ (∃ dir ∈ mA.dirs, jsStartsWith fileX.onDiskFilePath dir.path = true) :=
  ⟨C1_traversal_guard.1 mB envA [] reqEsc "../secret" "secret" (by decide) (by decide),
   C1_traversal_guard.2.1 envA { mountPath := none, path := "root" } [] "../secret"
     (by decide) (by decide),
   C1_traversal_guard.2.2 envA mA.dirs "/a/x" "/x" fileX (by decide)⟩

/-- C2 counterexample: under the mount `/a` → `root`, serving `/a/x` on a
cold cache stores the new entry under the stripped key `/x`, not under the
original request path `/a/x`: a lookup by the original request path misses,
refuting "stored keyed by the original request path
(pre-mount-prefix-stripping)". -/
theorem C2_cache_key_counterexample :
    (execute mA envA [] reqGA).result = .served
    ∧ cacheLookup (execute mA envA [] reqGA).fileDataCache "/a/x" = none
    ∧ cacheLookup (execute mA envA [] reqGA).fileDataCache "/x" = some fileX := by
  decide

/-- C2 amended: on a cache miss that resolves to a file, the new entry is
stored keyed by the loop's current `requestedFilePath` — the request path as
cumulatively stripped by matching `mountPath` values — not by the original
request path.  When no mount declares a `mountPath`, that key coincides with
the original normalized request path, and only then does a subsequent
request for the same external path find the entry with a single lookup. -/
theorem C2_cache_key_amended :
    (∀ (m : FritterStaticMiddleware) (env : Env) (cache : FileDataCache)
       (req : FritterRequest) (key : String) (file : FritterStaticMiddlewareFile),
       (req.httpMethod = "GET" ∨ req.httpMethod = "HEAD") →
       posixBasename (posixNormalize req.path) ≠ "." →
       cacheLookup cache (posixNormalize req.path) = none →
       iterateDirs env m.dirs (posixNormalize req.path) = .found key file →
       ∃ f, cacheLookup (execute m env cache req).fileDataCache key = some f ∧
         f.onDiskFilePath = file.onDiskFilePath)
    ∧
    (∀ (env : Env) (dirs : List FritterStaticMiddlewareDirectory) (rfp key : String)
       (file : FritterStaticMiddlewareFile),
       (∀ dir ∈ dirs, dir.mountPath = none) →
       iterateDirs env dirs rfp = .found key file →
       key = rfp) := by
  constructor
  · intro m env cache req key file hm hb hc hl
    have hm' : ¬ (req.httpMethod ≠ "GET" ∧ req.httpMethod ≠ "HEAD") := by
      rcases hm with hm | hm <;> simp [hm]
    simp only [execute, if_neg hm', if_neg hb, hc, hl]
    cases hstat : env.stat file.onDiskFilePath with
    | none =>
      exact ⟨file, by simp [executeServe, hstat, cacheInsert, cacheLookup], rfl⟩
    | some stats =>
      by_cases hmt : stats.mtimeMs ≠ file.stats.mtimeMs
      · refine ⟨{ file with
            modifiedDate := stats.mtimeMs
            size := stats.size
            stats := stats
            type := mimeTypeFor env file.onDiskFilePath }, ?_, rfl⟩
        simp [executeServe, hstat, hmt, buildResponse_fileDataCache, cacheInsert, cacheLookup]
      · exact ⟨file, by
          simp [executeServe, hstat, hmt, buildResponse_fileDataCache, cacheInsert,
            cacheLookup], rfl⟩
  · intro env dirs rfp key file hall h
    induction dirs generalizing rfp with
    | nil => simp [iterateDirs] at h
    | cons dir rest ih =>
      have hd : dir.mountPath = none := hall dir (List.mem_cons_self _ _)
      simp only [iterateDirs, hd, Option.isSome_none, Bool.false_eq_true, false_and,
        if_false, stripMount] at h
      have hall' : ∀ d ∈ rest, d.mountPath = none :=
        fun d hdm => hall d (List.mem_cons_of_mem _ hdm)
      split at h
      · simp at h
      · split at h
        · exact ih _ hall' h
        · split at h
          · exact ih _ hall' h
          · cases h
            rfl

/-- Witness for the amended C2 at concrete inputs: the `/a/x` request's
entry is found under its stripped key `/x`, and in the mount-path-free
configuration `mTwo` the loop's key is the request path itself. -/
theorem C2_cache_key_amended_witness :
    (∃ f, cacheLookup (execute mA envA [] reqGA).fileDataCache "/x" = some f ∧
       f.onDiskFilePath = fileX.onDiskFilePath)
    ∧ ("/f" : String) = "/f" :=
  ⟨C2_cache_key_amended.1 mA envA [] reqGA "/x" fileX (Or.inl rfl) (by decide)
     (by decide) (by decide),
   C2_cache_key_amended.2 envTwo mTwo.dirs "/f" "/f" fileF (by decide) (by decide)⟩

/-- C3: on a cache hit whose re-stat fails (the cached file vanished from
disk after being cached), the middleware surfaces the failure of the
current request as the unhandled rejection of the bare `fs.promises.stat`
call (the calling convention's standard error-reporting channel): it does
not delegate to the next handler, does not re-run directory resolution,
and leaves the cache and the response untouched. -/
theorem C3_stale_stat_error
    (m : FritterStaticMiddleware) (env : Env) (cache : FileDataCache)
    (req : FritterRequest) (file : FritterStaticMiddlewareFile)
    (hm : req.httpMethod = "GET" ∨ req.httpMethod = "HEAD")
    (hb : posixBasename (posixNormalize req.path) ≠ ".")
    (hc : cacheLookup cache (posixNormalize req.path) = some file)
    (hstat : env.stat file.onDiskFilePath = none) :
    execute m env cache req =
      { result := .statError file.onDiskFilePath, fileDataCache := cache
        response := Response.initial }
    ∧ (ExecResult.statError file.onDiskFilePath ≠ .next) := by
  have hm' : ¬ (req.httpMethod ≠ "GET" ∧ req.httpMethod ≠ "HEAD") := by
    rcases hm with hm | hm <;> simp [hm]
  constructor
  · simp only [execute, if_neg hm', if_neg hb, hc]
    simp [executeServe, hstat]
  · simp

/-- Witness for C3: the entry for `/p` points at `root/x`, which no longer
stats under `envGone`; the request errors out with the cache intact. -/
theorem C3_stale_stat_error_witness :
    execute mA envGone cacheX reqGP =
      { result := .statError "root/x", fileDataCache := cacheX
        response := Response.initial }
    ∧ (ExecResult.statError "root/x" ≠ .next) :=
  C3_stale_stat_error mA envGone cacheX reqGP fileX (Or.inl rfl) (by decide)
    (by decide) (by decide)

/-- C4: mount priority.  (1) At the first mount whose (possibly stripped)
candidate stats to a regular file, the loop stops with that mount's file —
the result does not depend on the remaining mounts.  (2) A stat failure
skips exactly that mount, continuing with the rest.  (3) A stat success on
a non-regular file (e.g. a directory) likewise skips only that mount. -/
theorem C4_mount_priority :
    (∀ (env : Env) (dir : FritterStaticMiddlewareDirectory)
       (rest : List FritterStaticMiddlewareDirectory) (rfp : String) (stats : Stats),
       mountApplies dir rfp = true →
       jsStartsWith (posixJoin dir.path (stripMount dir rfp)) dir.path = true →
       env.stat (posixJoin dir.path (stripMount dir rfp)) = some stats →
       stats.isFile = true →
       iterateDirs env (dir :: rest) rfp =
         .found (stripMount dir rfp)
           { onDiskFilePath := posixJoin dir.path (stripMount dir rfp)
             modifiedDate := stats.mtimeMs
             size := stats.size
             stats := stats
             type := mimeTypeFor env (posixJoin dir.path (stripMount dir rfp)) })
    ∧
    (∀ (env : Env) (dir : FritterStaticMiddlewareDirectory)
       (rest : List FritterStaticMiddlewareDirectory) (rfp : String),
       mountApplies dir rfp = true →
       jsStartsWith (posixJoin dir.path (stripMount dir rfp)) dir.path = true →
       env.stat (posixJoin dir.path (stripMount dir rfp)) = none →
       iterateDirs env (dir :: rest) rfp = iterateDirs env rest (stripMount dir rfp))
    ∧
    (∀ (env : Env) (dir : FritterStaticMiddlewareDirectory)
       (rest : List FritterStaticMiddlewareDirectory) (rfp : String) (stats : Stats),
       mountApplies dir rfp = true →
       jsStartsWith (posixJoin dir.path (stripMount dir rfp)) dir.path = true →
       env.stat (posixJoin dir.path (stripMount dir rfp)) = some stats →
       stats.isFile = false →
       iterateDirs env (dir :: rest) rfp = iterateDirs env rest (stripMount dir rfp)) := by
  refine ⟨?_, ?_, ?_⟩
  · intro env dir rest rfp stats hm hg hs hf
    cases hd : dir.mountPath with
    | none =>
      simp only [stripMount, hd] at hg hs ⊢
      simp [iterateDirs, stripMount, hd, hg, hs, hf]
    | some mp =>
      have hsw : jsStartsWith rfp mp = true := by simpa [mountApplies, hd] using hm
      simp only [stripMount, hd] at hg hs ⊢
      simp [iterateDirs, stripMount, hd, hsw, hg, hs, hf]
  · intro env dir rest rfp hm hg hs
    cases hd : dir.mountPath with
    | none =>
      simp only [stripMount, hd] at hg hs ⊢
      simp [iterateDirs, stripMount, hd, hg, hs]
    | some mp =>
      have hsw : jsStartsWith rfp mp = true := by simpa [mountApplies, hd] using hm
      simp only [stripMount, hd] at hg hs ⊢
      simp [iterateDirs, stripMount, hd, hsw, hg, hs]
  · intro env dir rest rfp stats hm hg hs hf
    cases hd : dir.mountPath with
    | none =>
      simp only [stripMount, hd] at hg hs ⊢
      simp [iterateDirs, stripMount, hd, hg, hs, hf]
    | some mp =>
      have hsw : jsStartsWith rfp mp = true := by simpa [mountApplies, hd] using hm
      simp only [stripMount, hd] at hg hs ⊢
      simp [iterateDirs, stripMount, hd, hsw, hg, hs, hf]

/-- Witness for C4 under `envTwo`/`mTwo`: `r2/f` wins at the mount `r2`;
the missing `r1/f` and the directory `r1/d` each skip only `r1`. -/
theorem C4_mount_priority_witness :
    (iterateDirs envTwo [{ mountPath := none, path := "r2" }] "/f" =
      .found "/f" fileF)
    ∧ (iterateDirs envTwo mTwo.dirs "/f" =
        iterateDirs envTwo [{ mountPath := none, path := "r2" }] "/f")
    ∧ (iterateDirs envTwo mTwo.dirs "/d" =
        iterateDirs envTwo [{ mountPath := none, path := "r2" }] "/d") :=
  ⟨C4_mount_priority.1 envTwo { mountPath := none, path := "r2" } [] "/f"
     { isFile := true, mtimeMs := 7, size := 10 } (by decide) (by decide)
     (by decide) (by decide),
   C4_mount_priority.2.1 envTwo { mountPath := none, path := "r1" }
     [{ mountPath := none, path := "r2" }] "/f" (by decide) (by decide) (by decide),
   C4_mount_priority.2.2 envTwo { mountPath := none, path := "r1" }
     [{ mountPath := none, path := "r2" }] "/d"
     { isFile := false, mtimeMs := 1, size := 0 } (by decide) (by decide)
     (by decide) (by decide)⟩

/-- C5: cache coherence.  On a cache hit whose re-stat reports a changed
`mtimeMs`, all four derived fields (modified date, size, stat snapshot,
content type) are refreshed in place before the response is built:
`execute` continues exactly as `buildResponse` on the refreshed entry over
the updated cache, the cache afterwards maps the request path to the
refreshed entry, the response's Last-Modified is the fresh mtime, and a
non-fresh response carries the freshly recomputed content type. -/
theorem C5_cache_refresh
    (m : FritterStaticMiddleware) (env : Env) (cache : FileDataCache)
    (req : FritterRequest) (file : FritterStaticMiddlewareFile) (stats : Stats)
    (hm : req.httpMethod = "GET" ∨ req.httpMethod = "HEAD")
    (hb : posixBasename (posixNormalize req.path) ≠ ".")
    (hc : cacheLookup cache (posixNormalize req.path) = some file)
    (hstat : env.stat file.onDiskFilePath = some stats)
    (hne : stats.mtimeMs ≠ file.stats.mtimeMs) :
    execute m env cache req =
      buildResponse m env
        (cacheInsert cache (posixNormalize req.path)
          { file with
              modifiedDate := stats.mtimeMs
              size := stats.size
              stats := stats
              type := mimeTypeFor env file.onDiskFilePath })
        { file with
            modifiedDate := stats.mtimeMs
            size := stats.size
            stats := stats
            type := mimeTypeFor env file.onDiskFilePath } req
    ∧ cacheLookup (execute m env cache req).fileDataCache (posixNormalize req.path) =
        some { file with
            modifiedDate := stats.mtimeMs
            size := stats.size
            stats := stats
            type := mimeTypeFor env file.onDiskFilePath }
    ∧ (execute m env cache req).response.lastModified = some stats.mtimeMs
    ∧ (req.isFresh = false →
        (execute m env cache req).response.contentType =
          some (mimeTypeFor env file.onDiskFilePath)) := by
  have hm' : ¬ (req.httpMethod ≠ "GET" ∧ req.httpMethod ≠ "HEAD") := by
    rcases hm with hm | hm <;> simp [hm]
  have hexec : execute m env cache req =
      buildResponse m env
        (cacheInsert cache (posixNormalize req.path)
          { file with
              modifiedDate := stats.mtimeMs
              size := stats.size
              stats := stats
              type := mimeTypeFor env file.onDiskFilePath })
        { file with
            modifiedDate := stats.mtimeMs
            size := stats.size
            stats := stats
            type := mimeTypeFor env file.onDiskFilePath } req := by
    simp only [execute, if_neg hm', if_neg hb, hc]
    simp [executeServe, hstat, hne]
  refine ⟨hexec, ?_, ?_, ?_⟩
  · rw [hexec, buildResponse_fileDataCache]
    simp [cacheInsert, cacheLookup]
  · rw [hexec, buildResponse_lastModified]
  · intro hf
    rw [hexec, buildResponse_contentType _ _ _ _ _ hf]

/-- Witness for C5: after `root/x` changes on disk (`envB`), the `/p`
request refreshes the entry to `fileXRefreshed` and responds with the new
Last-Modified value. -/
theorem C5_cache_refresh_witness :
    cacheLookup (execute mA envB cacheX reqGP).fileDataCache "/p" = some fileXRefreshed
    ∧ (execute mA envB cacheX reqGP).response.lastModified = some 9
    ∧ (execute mA envB cacheX reqGP).response.contentType = some "text/css" := by
  have h := C5_cache_refresh mA envB cacheX reqGP fileX
    { isFile := true, mtimeMs := 9, size := 3000 } (Or.inl rfl) (by decide)
    (by decide) (by decide) (by decide)
  exact ⟨h.2.1, h.2.2.1, h.2.2.2 rfl⟩

/-- C6: conditional response.  Serving a file whose cached snapshot is
current: a fresh request gets status 304 and the handler terminates at once
— no body and no headers beyond the already-set Last-Modified and Vary
names (content type, content length, Cache-Control and every named header
are unset), shown by a full record equality.  A non-fresh request gets
status 200 with content type and Cache-Control set and, for GET, a body;
its content length equals the file's size except when the compression step
(claim C7) has removed it, in which case Content-Encoding gzip is
present. -/
theorem C6_conditional_response
    (m : FritterStaticMiddleware) (env : Env) (cache : FileDataCache)
    (req : FritterRequest) (file : FritterStaticMiddlewareFile)
    (hm : req.httpMethod = "GET" ∨ req.httpMethod = "HEAD")
    (hb : posixBasename (posixNormalize req.path) ≠ ".")
    (hc : cacheLookup cache (posixNormalize req.path) = some file)
    (hstat : env.stat file.onDiskFilePath = some file.stats) :
    (req.isFresh = true →
      (execute m env cache req).response =
        { Response.initial with
            statusCode := some 304
            lastModified := some file.modifiedDate
            varyHeaderNames := if m.enableGzip then ["Accept-Encoding"] else [] })
    ∧ (req.isFresh = false →
        (execute m env cache req).response.statusCode = some 200
        ∧ (execute m env cache req).response.contentType = some file.type
        ∧ (execute m env cache req).response.headerValue "Cache-Control" =
            some m.cacheControlHeader
        ∧ (req.httpMethod = "GET" → (execute m env cache req).response.body.isSome = true)
        ∧ ((execute m env cache req).response.contentLength = some file.size
            ∨ ((execute m env cache req).response.headerValue "Content-Encoding" =
                some "gzip"
              ∧ (execute m env cache req).response.contentLength = none))) := by
  have hm' : ¬ (req.httpMethod ≠ "GET" ∧ req.httpMethod ≠ "HEAD") := by
    rcases hm with hm | hm <;> simp [hm]
  have hexec : execute m env cache req = buildResponse m env cache file req := by
    simp only [execute, if_neg hm', if_neg hb, hc]
    simp [executeServe, hstat]
  rw [hexec]
  constructor
  · intro h1
    unfold buildResponse
    by_cases hgz : m.enableGzip <;> simp [h1, hgz, apply_ite, Response.initial]
  · intro h1
    unfold buildResponse
    by_cases h2 : req.httpMethod = "HEAD"
    · simp [h1, h2, setHeaderValue, Response.headerValue, apply_ite]
    · cases h3 : req.acceptsGzip && shouldGzipFor m env file <;>
        simp [h1, h2, h3, setHeaderValue, removeHeaderValue, Response.headerValue,
          apply_ite]

/-- Witness for C6: under `envA`/`cacheX`, the fresh request `reqFresh`
gets a bare 304 and the non-fresh `reqGP` a 200 with headers and body. -/
theorem C6_conditional_response_witness :
    ((execute mA envA cacheX reqFresh).response =
      { Response.initial with
          statusCode := some 304
          lastModified := some 5
          varyHeaderNames := ["Accept-Encoding"] })
    ∧ ((execute mA envA cacheX reqGP).response.statusCode = some 200
        ∧ (execute mA envA cacheX reqGP).response.contentType = some "text/css"
        ∧ (execute mA envA cacheX reqGP).response.headerValue "Cache-Control" =
            some "public, max-age=0"
        ∧ (reqGP.httpMethod = "GET" →
            (execute mA envA cacheX reqGP).response.body.isSome = true)
        ∧ ((execute mA envA cacheX reqGP).response.contentLength = some 2000
            ∨ ((execute mA envA cacheX reqGP).response.headerValue "Content-Encoding" =
                some "gzip"
              ∧ (execute mA envA cacheX reqGP).response.contentLength = none))) :=
  ⟨(C6_conditional_response mA envA cacheX reqFresh fileX (Or.inl rfl) (by decide)
      (by decide) (by decide)).1 rfl,
   (C6_conditional_response mA envA cacheX reqGP fileX (Or.inl rfl) (by decide)
      (by decide) (by decide)).2 rfl⟩

/-- C7: compression decision.  For a GET serving a file body, gzip is
applied exactly when the client accepts gzip and `shouldGzipFor` holds —
which is by definition `enableGzip && size > 1024 && compressible type`.
When applied: content length removed, Content-Encoding set to gzip, body
the file stream piped through gzip.  Otherwise: the plain file stream with
content length equal to the file's byte size and no Content-Encoding. -/
theorem C7_compression
    (m : FritterStaticMiddleware) (env : Env) (cache : FileDataCache)
    (req : FritterRequest) (file : FritterStaticMiddlewareFile)
    (hm : req.httpMethod = "GET")
    (hb : posixBasename (posixNormalize req.path) ≠ ".")
    (hc : cacheLookup cache (posixNormalize req.path) = some file)
    (hstat : env.stat file.onDiskFilePath = some file.stats)
    (hf : req.isFresh = false) :
    ((req.acceptsGzip && shouldGzipFor m env file) = true →
      (execute m env cache req).response.contentLength = none
      ∧ (execute m env cache req).response.headerValue "Content-Encoding" = some "gzip"
      ∧ (execute m env cache req).response.body =
          some (.gzipStream file.onDiskFilePath))
    ∧ ((req.acceptsGzip && shouldGzipFor m env file) = false →
      (execute m env cache req).response.contentLength = some file.size
      ∧ (execute m env cache req).response.headerValue "Content-Encoding" = none
      ∧ (execute m env cache req).response.body =
          some (.fileStream file.onDiskFilePath))
    ∧ shouldGzipFor m env file =
        (m.enableGzip && decide (file.size > 1024) && env.compressible file.type) := by
  have hm' : ¬ (req.httpMethod ≠ "GET" ∧ req.httpMethod ≠ "HEAD") := by simp [hm]
  have hhead : ¬ req.httpMethod = "HEAD" := by simp [hm]
  have hexec : execute m env cache req = buildResponse m env cache file req := by
    simp only [execute, if_neg hm', if_neg hb, hc]
    simp [executeServe, hstat]
  refine ⟨?_, ?_, rfl⟩ <;> intro h3 <;> rw [hexec] <;> unfold buildResponse <;>
    simp [hf, hhead, h3, setHeaderValue, removeHeaderValue, Response.headerValue,
      Response.initial, apply_ite]

/-- Witness for C7: the 2000-byte `fileX` is gzip-encoded with no content
length; the 500-byte `fileXSmall` is served plain with content length
500. -/
theorem C7_compression_witness :
    ((reqGP.acceptsGzip && shouldGzipFor mA envA fileX) = true
      ∧ (execute mA envA cacheX reqGP).response.contentLength = none
      ∧ (execute mA envA cacheX reqGP).response.headerValue "Content-Encoding" =
          some "gzip"
      ∧ (execute mA envA cacheX reqGP).response.body = some (.gzipStream "root/x"))
    ∧ ((reqGP.acceptsGzip && shouldGzipFor mA envSmall fileXSmall) = false
      ∧ (execute mA envSmall cacheSmall reqGP).response.contentLength = some 500
      ∧ (execute mA envSmall cacheSmall reqGP).response.headerValue "Content-Encoding" =
          none
      ∧ (execute mA envSmall cacheSmall reqGP).response.body =
          some (.fileStream "root/x")) :=
  ⟨⟨by decide,
    (C7_compression mA envA cacheX reqGP fileX rfl (by decide) (by decide) (by decide)
        rfl).1 (by decide)⟩,
   ⟨by decide,
    (C7_compression mA envSmall cacheSmall reqGP fileXSmall rfl (by decide) (by decide)
        (by decide) rfl).2.1 (by decide)⟩⟩

/-- C8 counterexample: serving the 2000-byte compressible `root/x` to a
gzip-accepting client, the HEAD response keeps Content-Length 2000 and has
no Content-Encoding, while the equivalent GET removes Content-Length and
sets Content-Encoding gzip — the headers are not exactly those of the
equivalent GET. -/
theorem C8_head_counterexample :
    (execute mA envA cacheX reqHP).response.contentLength = some 2000
    ∧ (execute mA envA cacheX reqGP).response.contentLength = none
    ∧ (execute mA envA cacheX reqHP).response.headerValue "Content-Encoding" = none
    ∧ (execute mA envA cacheX reqGP).response.headerValue "Content-Encoding" =
        some "gzip"
    ∧ (execute mA envA cacheX reqHP).response.body = none := by
  decide

/-- C8 amended: a HEAD request attaches no body and sets the same status,
Last-Modified, Vary names and content type as the equivalent GET; when the
GET would not be gzip-compressed (gzip disabled, size ≤ 1024,
non-compressible type, or client not accepting gzip) its headers are
exactly the GET's, and on a fresh request the responses agree entirely.
When the GET is gzip-compressed, the two differ precisely in the
compression step's effects: the HEAD keeps Content-Length equal to the
file size and no Content-Encoding, the GET drops Content-Length and
carries Content-Encoding gzip. -/
theorem C8_head_semantics_amended
    (m : FritterStaticMiddleware) (env : Env) (cache : FileDataCache)
    (req : FritterRequest) (file : FritterStaticMiddlewareFile)
    (hb : posixBasename (posixNormalize req.path) ≠ ".")
    (hc : cacheLookup cache (posixNormalize req.path) = some file)
    (hstat : env.stat file.onDiskFilePath = some file.stats) :
    (execute m env cache { req with httpMethod := "HEAD" }).response.body = none
    ∧ (execute m env cache { req with httpMethod := "HEAD" }).response.statusCode =
        (execute m env cache { req with httpMethod := "GET" }).response.statusCode
    ∧ (execute m env cache { req with httpMethod := "HEAD" }).response.lastModified =
        (execute m env cache { req with httpMethod := "GET" }).response.lastModified
    ∧ (execute m env cache { req with httpMethod := "HEAD" }).response.contentType =
        (execute m env cache { req with httpMethod := "GET" }).response.contentType
    ∧ (req.isFresh = true →
        (execute m env cache { req with httpMethod := "HEAD" }).response =
          (execute m env cache { req with httpMethod := "GET" }).response)
    ∧ (req.isFresh = false → (req.acceptsGzip && shouldGzipFor m env file) = false →
        (execute m env cache { req with httpMethod := "HEAD" }).response =
          { (execute m env cache { req with httpMethod := "GET" }).response with
              body := none })
    ∧ (req.isFresh = false → (req.acceptsGzip && shouldGzipFor m env file) = true →
        (execute m env cache { req with httpMethod := "HEAD" }).response.contentLength =
          some file.size
        ∧ (execute m env cache { req with httpMethod := "GET" }).response.contentLength =
            none
        ∧ (execute m env cache
            { req with httpMethod := "HEAD" }).response.headerValue "Content-Encoding" =
            none
        ∧ (execute m env cache
            { req with httpMethod := "GET" }).response.headerValue "Content-Encoding" =
            some "gzip") := by
  have hexecH : execute m env cache { req with httpMethod := "HEAD" } =
      buildResponse m env cache file { req with httpMethod := "HEAD" } := by
    simp only [execute]
    simp only [if_neg hb, hc]
    simp [executeServe, hstat]
  have hexecG : execute m env cache { req with httpMethod := "GET" } =
      buildResponse m env cache file { req with httpMethod := "GET" } := by
    simp only [execute]
    simp only [if_neg hb, hc]
    simp [executeServe, hstat]
  rw [hexecH, hexecG]
  cases h1 : req.isFresh
  · cases h3 : req.acceptsGzip && shouldGzipFor m env file
    · refine ⟨?_, ?_, ?_, ?_, ?_, ?_, ?_⟩
      · unfold buildResponse
        simp [h3, setHeaderValue, Response.initial, apply_ite]
      · unfold buildResponse
        simp [h3, setHeaderValue, removeHeaderValue, Response.initial, apply_ite]
      · unfold buildResponse
        simp [h3, setHeaderValue, removeHeaderValue, Response.initial, apply_ite]
      · unfold buildResponse
        simp [h3, setHeaderValue, removeHeaderValue, Response.initial, apply_ite]
      · intro h
        simp at h
      · intro _ _
        unfold buildResponse
        simp [h3, setHeaderValue, removeHeaderValue, Response.headerValue,
          Response.initial, apply_ite]
      · intro _ h
        simp at h
    · refine ⟨?_, ?_, ?_, ?_, ?_, ?_, ?_⟩
      · unfold buildResponse
        simp [h3, setHeaderValue, Response.initial, apply_ite]
      · unfold buildResponse
        simp [h3, setHeaderValue, removeHeaderValue, Response.initial, apply_ite]
      · unfold buildResponse
        simp [h3, setHeaderValue, removeHeaderValue, Response.initial, apply_ite]
      · unfold buildResponse
        simp [h3, setHeaderValue, removeHeaderValue, Response.initial, apply_ite]
      · intro h
        simp at h
      · intro _ h
        simp at h
      · intro _ _
        unfold buildResponse
        simp [h3, setHeaderValue, removeHeaderValue, Response.headerValue,
          Response.initial, apply_ite]
  · refine ⟨?_, ?_, ?_, ?_, ?_, ?_, ?_⟩
    · unfold buildResponse
      simp [setHeaderValue, Response.initial, apply_ite]
    · unfold buildResponse
      simp [setHeaderValue, Response.initial, apply_ite]
    · unfold buildResponse
      simp [setHeaderValue, Response.initial, apply_ite]
    · unfold buildResponse
      simp [setHeaderValue, Response.initial, apply_ite]
    · intro _
      unfold buildResponse
      simp [setHeaderValue, Response.initial, apply_ite]
    · intro h
      simp at h
    · intro h
      simp at h

/-- Witness for the amended C8 at the `envSmall` configuration (where the
GET is not compressed): the HEAD response equals the GET response minus
the body, and attaches no body. -/
theorem C8_head_semantics_amended_witness :
    (execute mA envSmall cacheSmall reqHP).response.body = none
    ∧ (execute mA envSmall cacheSmall reqHP).response =
        { (execute mA envSmall cacheSmall reqGP).response with body := none } := by
  have h := C8_head_semantics_amended mA envSmall cacheSmall reqGP fileXSmall
    (by decide) (by decide) (by decide)
  exact ⟨h.1, h.2.2.2.2.2.1 rfl (by decide)⟩

/-- C9 counterexample: with the mount `/a` → `root`, the never-served path
`/a/x` yields `/x?mtime=5` — the *stripped* path with the query appended,
not the argument path `/a/x?mtime=5`; and for the nonexistent `/a/nope`
the function returns the stripped `/nope`, not `/a/nope` unchanged. -/
theorem C9_cacheBusted_counterexample :
    getCacheBustedPath mA envA [] "/a/x" = "/x?mtime=5"
    ∧ getCacheBustedPath mA envA [] "/a/x" ≠ "/a/x" ++ "?mtime=" ++ toString 5
    ∧ getCacheBustedPath mA envA [] "/a/nope" = "/nope"
    ∧ getCacheBustedPath mA envA [] "/a/nope" ≠ "/a/nope" := by
  decide

/-- C9 amended: for a cached path, `getCacheBustedPath` returns the
argument path with `?mtime=` and the cached snapshot's `mtimeMs` appended.
For a never-served path it walks the mounts in priority order applying
cumulative mount-prefix stripping, stats each candidate synchronously, and
returns the *stripped* path with `?mtime=<on-disk mtimeMs>` appended at
the first stat success; mounts whose declared prefix does not match are
skipped without stripping, a failed stat moves on to the next mount with
the stripped path kept, and when no mount hits, the (possibly stripped)
path is returned with no query appended. -/
theorem C9_cacheBusted_amended :
    (∀ (m : FritterStaticMiddleware) (env : Env) (cache : FileDataCache)
       (filePath : String) (file : FritterStaticMiddlewareFile),
       cacheLookup cache filePath = some file →
       getCacheBustedPath m env cache filePath =
         filePath ++ "?mtime=" ++ toString file.stats.mtimeMs)
    ∧
    (∀ (m : FritterStaticMiddleware) (env : Env) (cache : FileDataCache)
       (filePath : String),
       cacheLookup cache filePath = none →
       getCacheBustedPath m env cache filePath =
         getCacheBustedPathLoop env m.dirs filePath)
    ∧
    (∀ (env : Env) (dir : FritterStaticMiddlewareDirectory)
       (rest : List FritterStaticMiddlewareDirectory) (fp : String) (stats : Stats),
       mountApplies dir fp = true →
       env.stat (posixJoin dir.path (stripMount dir fp)) = some stats →
       getCacheBustedPathLoop env (dir :: rest) fp =
         stripMount dir fp ++ "?mtime=" ++ toString stats.mtimeMs)
    ∧
    (∀ (env : Env) (dir : FritterStaticMiddlewareDirectory)
       (rest : List FritterStaticMiddlewareDirectory) (fp : String),
       mountApplies dir fp = true →
       env.stat (posixJoin dir.path (stripMount dir fp)) = none →
       getCacheBustedPathLoop env (dir :: rest) fp =
         getCacheBustedPathLoop env rest (stripMount dir fp))
    ∧
    (∀ (env : Env) (dir : FritterStaticMiddlewareDirectory)
       (rest : List FritterStaticMiddlewareDirectory) (fp mp : String),
       dir.mountPath = some mp →
       jsStartsWith fp mp = false →
       getCacheBustedPathLoop env (dir :: rest) fp =
         getCacheBustedPathLoop env rest fp)
    ∧
    (∀ (env : Env) (fp : String), getCacheBustedPathLoop env [] fp = fp) := by
  refine ⟨?_, ?_, ?_, ?_, ?_, ?_⟩
  · intro m env cache filePath file hc
    simp [getCacheBustedPath, hc]
  · intro m env cache filePath hc
    simp [getCacheBustedPath, hc]
  · intro env dir rest fp stats hm hs
    cases hd : dir.mountPath with
    | none =>
      simp only [stripMount, hd] at hs ⊢
      simp [getCacheBustedPathLoop, stripMount, hd, hs]
    | some mp =>
      have hsw : jsStartsWith fp mp = true := by simpa [mountApplies, hd] using hm
      simp only [stripMount, hd] at hs ⊢
      simp [getCacheBustedPathLoop, stripMount, hd, hsw, hs]
  · intro env dir rest fp hm hs
    cases hd : dir.mountPath with
    | none =>
      simp only [stripMount, hd] at hs ⊢
      simp [getCacheBustedPathLoop, stripMount, hd, hs]
    | some mp =>
      have hsw : jsStartsWith fp mp = true := by simpa [mountApplies, hd] using hm
      simp only [stripMount, hd] at hs ⊢
      simp [getCacheBustedPathLoop, stripMount, hd, hsw, hs]
  · intro env dir rest fp mp hd hsw
    simp [getCacheBustedPathLoop, hd, hsw]
  · intro env fp
    simp [getCacheBustedPathLoop]

/-- Witness for the amended C9 at concrete inputs: the cached `/p`, the
loop hit `/a/x`, the loop misses `/a/nope` and `/zz`, and the empty
mount list. -/
theorem C9_cacheBusted_amended_witness :
    getCacheBustedPath mA envA cacheX "/p" = "/p?mtime=5"
    ∧ getCacheBustedPath mA envA [] "/a/x" = getCacheBustedPathLoop envA mA.dirs "/a/x"
    ∧ getCacheBustedPathLoop envA [{ mountPath := some "/a", path := "root" }] "/a/x" =
        "/x?mtime=5"
    ∧ getCacheBustedPathLoop envA [{ mountPath := some "/a", path := "root" }] "/a/nope" =
        getCacheBustedPathLoop envA [] "/nope"
    ∧ getCacheBustedPathLoop envA [{ mountPath := some "/a", path := "root" }] "/zz" =
        getCacheBustedPathLoop envA [] "/zz"
    ∧ getCacheBustedPathLoop envA [] "/q" = "/q" :=
  ⟨C9_cacheBusted_amended.1 mA envA cacheX "/p" fileX (by decide),
   C9_cacheBusted_amended.2.1 mA envA [] "/a/x" (by decide),
   C9_cacheBusted_amended.2.2.1 envA { mountPath := some "/a", path := "root" } []
     "/a/x" { isFile := true, mtimeMs := 5, size := 2000 } (by decide) (by decide),
   C9_cacheBusted_amended.2.2.2.1 envA { mountPath := some "/a", path := "root" } []
     "/a/nope" (by decide) (by decide),
   C9_cacheBusted_amended.2.2.2.2.1 envA { mountPath := some "/a", path := "root" } []
     "/zz" "/a" rfl (by decide),
   C9_cacheBusted_amended.2.2.2.2.2 envA "/q"⟩

/-- C10: cumulative, persistent mount-prefix stripping.  (1)/(2) In the
`execute` loop, a mount whose declared prefix matches but which yields no
file — stat failure (1) or a non-regular-file stat (2) — hands the
*stripped* path on to the remaining mounts.  (3) A found entry's on-disk
path is the winning mount's root joined with the loop's final stripped
path, which is also the key `execute` stores the entry under — (4) a
lookup by that stripped key succeeds after `execute`.  (5)/(6)
`getCacheBustedPath`'s loop strips the same way: a failed stat passes the
stripped path on (5), and a hit builds the returned string from the
stripped path (6). -/
theorem C10_cumulative_stripping :
    (∀ (env : Env) (dir : FritterStaticMiddlewareDirectory)
       (rest : List FritterStaticMiddlewareDirectory) (rfp mp : String),
       dir.mountPath = some mp →
       jsStartsWith rfp mp = true →
       jsStartsWith (posixJoin dir.path (jsSlice rfp (jsLength mp))) dir.path = true →
       env.stat (posixJoin dir.path (jsSlice rfp (jsLength mp))) = none →
       iterateDirs env (dir :: rest) rfp =
         iterateDirs env rest (jsSlice rfp (jsLength mp)))
    ∧
    (∀ (env : Env) (dir : FritterStaticMiddlewareDirectory)
       (rest : List FritterStaticMiddlewareDirectory) (rfp mp : String) (stats : Stats),
       dir.mountPath = some mp →
       jsStartsWith rfp mp = true →
       jsStartsWith (posixJoin dir.path (jsSlice rfp (jsLength mp))) dir.path = true →
       env.stat (posixJoin dir.path (jsSlice rfp (jsLength mp))) = some stats →
       stats.isFile = false →
       iterateDirs env (dir :: rest) rfp =
         iterateDirs env rest (jsSlice rfp (jsLength mp)))
    ∧
    (∀ (env : Env) (dirs : List FritterStaticMiddlewareDirectory) (rfp key : String)
       (file : FritterStaticMiddlewareFile),
       iterateDirs env dirs rfp = .found key file →
       ∃ dir ∈ dirs, file.onDiskFilePath = posixJoin dir.path key)
    ∧
    (∀ (m : FritterStaticMiddleware) (env : Env) (cache : FileDataCache)
       (req : FritterRequest) (key : String) (file : FritterStaticMiddlewareFile),
       (req.httpMethod = "GET" ∨ req.httpMethod = "HEAD") →
       posixBasename (posixNormalize req.path) ≠ "." →
       cacheLookup cache (posixNormalize req.path) = none →
       iterateDirs env m.dirs (posixNormalize req.path) = .found key file →
       ∃ f, cacheLookup (execute m env cache req).fileDataCache key = some f)
    ∧
    (∀ (env : Env) (dir : FritterStaticMiddlewareDirectory)
       (rest : List FritterStaticMiddlewareDirectory) (fp mp : String),
       dir.mountPath = some mp →
       jsStartsWith fp mp = true →
       env.stat (posixJoin dir.path (jsSlice fp (jsLength mp))) = none →
       getCacheBustedPathLoop env (dir :: rest) fp =
         getCacheBustedPathLoop env rest (jsSlice fp (jsLength mp)))
    ∧
    (∀ (env : Env) (dir : FritterStaticMiddlewareDirectory)
       (rest : List FritterStaticMiddlewareDirectory) (fp mp : String) (stats : Stats),
       dir.mountPath = some mp →
       jsStartsWith fp mp = true →
       env.stat (posixJoin dir.path (jsSlice fp (jsLength mp))) = some stats →
       getCacheBustedPathLoop env (dir :: rest) fp =
         jsSlice fp (jsLength mp) ++ "?mtime=" ++ toString stats.mtimeMs) := by
  refine ⟨?_, ?_, ?_, ?_, ?_, ?_⟩
  · intro env dir rest rfp mp hd hsw hg hs
    simp [iterateDirs, stripMount, hd, hsw, hg, hs]
  · intro env dir rest rfp mp stats hd hsw hg hs hf
    simp [iterateDirs, stripMount, hd, hsw, hg, hs, hf]
  · intro env dirs rfp key file h
    induction dirs generalizing rfp with
    | nil => simp [iterateDirs] at h
    | cons dir rest ih =>
      simp only [iterateDirs] at h
      split at h
      · obtain ⟨d, hd, hp⟩ := ih _ h
        exact ⟨d, List.mem_cons_of_mem _ hd, hp⟩
      · split at h
        · simp at h
        · split at h
          · obtain ⟨d, hd, hp⟩ := ih _ h
            exact ⟨d, List.mem_cons_of_mem _ hd, hp⟩
          · split at h
            · obtain ⟨d, hd, hp⟩ := ih _ h
              exact ⟨d, List.mem_cons_of_mem _ hd, hp⟩
            · cases h
              exact ⟨dir, List.mem_cons_self _ _, rfl⟩
  · intro m env cache req key file hm hb hc hl
    have hm' : ¬ (req.httpMethod ≠ "GET" ∧ req.httpMethod ≠ "HEAD") := by
      rcases hm with hm | hm <;> simp [hm]
    simp only [execute, if_neg hm', if_neg hb, hc, hl]
    cases hstat : env.stat file.onDiskFilePath with
    | none =>
      exact ⟨file, by simp [executeServe, hstat, cacheInsert, cacheLookup]⟩
    | some stats =>
      by_cases hmt : stats.mtimeMs ≠ file.stats.mtimeMs
      · exact ⟨{ file with
            modifiedDate := stats.mtimeMs
            size := stats.size
            stats := stats
            type := mimeTypeFor env file.onDiskFilePath }, by
          simp [executeServe, hstat, hmt, buildResponse_fileDataCache, cacheInsert,
            cacheLookup]⟩
      · exact ⟨file, by
          simp [executeServe, hstat, hmt, buildResponse_fileDataCache, cacheInsert,
            cacheLookup]⟩
  · intro env dir rest fp mp hd hsw hs
    simp [getCacheBustedPathLoop, stripMount, hd, hsw, hs]
  · intro env dir rest fp mp stats hd hsw hs
    simp [getCacheBustedPathLoop, stripMount, hd, hsw, hs]

/-- Witness for C10 in the nested-mount scenario `mNested`/`envNested`,
request `/a/b/c`: mount `/a` strips to `/b/c` and misses, mount `/b` then
strips the already-stripped path to `/c` and wins; the entry is stored and
found under `/c`; `getCacheBustedPath`'s loop behaves identically. -/
theorem C10_cumulative_stripping_witness :
    (iterateDirs envNested mNested.dirs "/a/b/c" =
      iterateDirs envNested [{ mountPath := some "/b", path := "r2" }] "/b/c")
    ∧ (iterateDirs envNested mNested.dirs "/a/dd" =
        iterateDirs envNested [{ mountPath := some "/b", path := "r2" }] "/dd")
    ∧ (∃ dir ∈ mNested.dirs, fileC.onDiskFilePath = posixJoin dir.path "/c")
    ∧ (∃ f, cacheLookup (execute mNested envNested [] reqNested).fileDataCache "/c" =
        some f)
    ∧ (getCacheBustedPathLoop envNested mNested.dirs "/a/b/c" =
        getCacheBustedPathLoop envNested [{ mountPath := some "/b", path := "r2" }]
          "/b/c")
    ∧ (getCacheBustedPathLoop envNested [{ mountPath := some "/b", path := "r2" }]
        "/b/c" = "/c?mtime=11") :=
  ⟨C10_cumulative_stripping.1 envNested { mountPath := some "/a", path := "r1" }
     [{ mountPath := some "/b", path := "r2" }] "/a/b/c" "/a" rfl (by decide)
     (by decide) (by decide),
   C10_cumulative_stripping.2.1 envNested { mountPath := some "/a", path := "r1" }
     [{ mountPath := some "/b", path := "r2" }] "/a/dd" "/a"
     { isFile := false, mtimeMs := 0, size := 0 } rfl (by decide) (by decide)
     (by decide) (by decide),
   C10_cumulative_stripping.2.2.1 envNested mNested.dirs "/a/b/c" "/c" fileC
     (by decide),
   C10_cumulative_stripping.2.2.2.1 mNested envNested [] reqNested "/c" fileC
     (Or.inl rfl) (by decide) (by decide) (by decide),
   C10_cumulative_stripping.2.2.2.2.1 envNested { mountPath := some "/a", path := "r1" }
     [{ mountPath := some "/b", path := "r2" }] "/a/b/c" "/a" rfl (by decide)
     (by decide),
   C10_cumulative_stripping.2.2.2.2.2 envNested { mountPath := some "/b", path := "r2" }
     [] "/b/c" "/b" { isFile := true, mtimeMs := 11, size := 50 } rfl (by decide)
     (by decide)⟩

end FritterStatic
